import Mathlib

/-!
Verification of the relationship-detection and action-dispatch engine of
`linkedin_bot.py` (class `LinkedInBot`), shallowly embedded in Lean 4.

Modelling conventions:
* A DOM element is reduced to the attributes the engine actually inspects:
  its (normalised-whitespace source) text, its aria-label, whether Selenium
  reports it displayed and enabled, and its on-screen location x/y.
* A page, as seen by the status detector, is the list of button elements
  returned by the driver; each XPath predicate used by
  `_detect_relationship_status` is translated to a Lean predicate over an
  element (all of those XPaths are simple `//button[...]` text / aria-label
  tests).
* The dynamically-changing parts of the page (what each of the four
  visible-Connect selectors returns on its iteration, whether the More
  dropdown and its Connect entry are found, whether the note composer and
  the send click succeed) are oracles supplied in a `DispatchEnv`: the
  browser driver is an uncontrolled external collaborator, so the engine
  must be correct for every possible sequence of driver responses.
* Mutating page interactions are recorded in an explicit trace of `Act`
  values so that claims about "no action taken" / "at most one outbound
  action" become statements about the trace.
* Python dict results are structures whose optional keys are `Option`
  fields: a key the code does not put in the dict is `none`.
-/

/-- Character-list prefix test (used to build substring containment). -/
def charsPrefixOf : List Char → List Char → Bool
  | [], _ => true
  | _ :: _, [] => false
  | a :: as, b :: bs => a == b && charsPrefixOf as bs

/-- Character-list substring test: does the first list occur inside the second. -/
def charsInfixOf : List Char → List Char → Bool
  | p, [] => p.isEmpty
  | p, c :: tl => charsPrefixOf p (c :: tl) || charsInfixOf p tl

/-- String containment, the semantics of XPath `contains(hay, pat)` and of
Python `pat in hay` (case-sensitive). -/
def strContains (hay pat : String) : Bool := charsInfixOf pat.data hay.data

/-- Split a character list into maximal whitespace-free words; the first
argument accumulates the current word in reverse. -/
def wsWordsAux : List Char → List Char → List (List Char)
  | acc, [] => if acc.isEmpty then [] else [acc.reverse]
  | acc, c :: cs =>
    if c.isWhitespace then
      if acc.isEmpty then wsWordsAux [] cs else acc.reverse :: wsWordsAux [] cs
    else wsWordsAux (c :: acc) cs

/-- Join words with single spaces. -/
def joinWords : List (List Char) → List Char
  | [] => []
  | [w] => w
  | w :: ws => w ++ ' ' :: joinWords ws

/-- XPath `normalize-space`: strip leading/trailing whitespace and collapse
internal whitespace runs to single spaces. -/
def normSpace (s : String) : String := ⟨joinWords (wsWordsAux [] s.data)⟩

/-- Python `str.strip()`: drop leading and trailing whitespace. -/
def pyStrip (s : String) : String :=
  ⟨((s.data.dropWhile Char.isWhitespace).reverse.dropWhile Char.isWhitespace).reverse⟩

/-- A DOM element, reduced to the attributes the engine inspects. -/
structure Elem where
  text : String
  ariaLabel : String
  displayed : Bool
  enabled : Bool
  x : Int
  y : Int
deriving DecidableEq, Repr

/-- Relationship status detected on a profile page. -/
inductive RelStatus where
  | pending
  | connected
  | following
deriving DecidableEq, Repr

/-- The `action_taken` enum of the Outcome dict (absence of the key is
modelled as `Option.none` at the use site). -/
inductive ActionTaken where
  | connection_request
  | follow
  | already_pending
  | already_connected
  | already_following
deriving DecidableEq, Repr

/-- The result dict of a dispatch call.  Keys the code omits from a given
dict are `none`. -/
structure Outcome where
  success : Bool
  action_taken : Option ActionTaken
  message_sent : Option Bool
  error : Option String
deriving DecidableEq, Repr

/-! ### Status detector (`_detect_relationship_status`, linkedin_bot.py 578-670) -/

/-- XPath `//button[contains(., 'Pending') or contains(@aria-label, 'Pending')]`. -/
def pendingTextAriaSel (e : Elem) : Bool :=
  strContains e.text "Pending" || strContains e.ariaLabel "Pending"

/-- XPath `//button[contains(@aria-label, 'withdraw')]`. -/
def withdrawAriaSel (e : Elem) : Bool := strContains e.ariaLabel "withdraw"

/-- XPath `//button[normalize-space(.)='Message']`. -/
def messageSel (e : Elem) : Bool := normSpace e.text == "Message"

/-- XPath `//button[normalize-space(.)='Connect']`. -/
def connectSel (e : Elem) : Bool := normSpace e.text == "Connect"

/-- XPath `//button[normalize-space(.)='Follow' or normalize-space(.)='Following']`. -/
def followExactSel (e : Elem) : Bool :=
  normSpace e.text == "Follow" || normSpace e.text == "Following"

/-- XPath `//button[contains(., 'Pending')]`. -/
def pendingTextSel (e : Elem) : Bool := strContains e.text "Pending"

/-- XPath `//button[contains(., 'Following') or contains(@aria-label, 'Following')]`. -/
def followingSel (e : Elem) : Bool :=
  strContains e.text "Following" || strContains e.ariaLabel "Following"

/-- Does some element of the page satisfy the selector and report displayed. -/
def anyVisible (page : List Elem) (sel : Elem → Bool) : Bool :=
  page.any (fun e => e.displayed && sel e)

/-- Shallow embedding of `_detect_relationship_status`: check Pending (two
selectors, either yields pending), then the Message-only connected test,
then Following, else no status.  The function is read-only: it takes the
page and produces no action trace. -/
def detect_relationship_status (page : List Elem) : Option RelStatus :=
  if anyVisible page pendingTextAriaSel || anyVisible page withdrawAriaSel then
    some .pending
  else if anyVisible page messageSel && !anyVisible page connectSel
      && !anyVisible page followExactSel && !anyVisible page pendingTextSel then
    some .connected
  else if anyVisible page followingSel then
    some .following
  else
    none

/-! ### Note clamp (`_add_connection_note`, linkedin_bot.py 1109-1111) -/

/-- The length clamp applied to the caller-supplied note: Python
`message[:297] + "..."` when `len(message) > 300`, otherwise unchanged. -/
def clampNote (m : String) : String :=
  if 300 < m.length then ⟨m.data.take 297⟩ ++ "..." else m

/-! ### Note composer fill step (`_fill_message_textarea`, linkedin_bot.py 1238-1316) -/

/-- Driver responses for one call of the textarea fill step: whether a
displayed message field is found by some textarea selector, and the content
the field reports (attribute value, or text for contenteditable) after the
typing pass. -/
structure NoteFillEnv where
  fieldFound : Bool
  fieldContent : String
deriving DecidableEq, Repr

/-- The result dict of the note-composer strategies. -/
structure FillResult where
  success : Bool
  shortWarning : Bool
  error : Option String
deriving DecidableEq, Repr

/-- Shallow embedding of `_fill_message_textarea`: fail when no field is
found; otherwise clear, type, read the content back, emit a warning when
fewer than 90 percent of the characters are present, and return success.
The read-back content influences only the logged warning, never the
returned success flag. -/
def fill_message_textarea (env : NoteFillEnv) (message : String) : FillResult :=
  if env.fieldFound then
    { success := true
      shortWarning := 10 * env.fieldContent.length < 9 * message.length
      error := none }
  else
    { success := false
      shortWarning := false
      error := some "Message text area not found after expansion" }

/-! ### Send click (`_click_send_button`, linkedin_bot.py 1318-1406) -/

/-- Driver responses for one call of the send-click step: whether a
displayed, clickable send control is found by some selector of the branch
chosen by `note_was_added`, and whether the invite modal is still displayed
after the post-click wait. -/
structure SendEnv where
  sendBtnFound : Bool
  modalStillVisible : Bool
deriving DecidableEq, Repr

/-- Shallow embedding of `_click_send_button`: when no send control is
found return failure; otherwise click it, check whether the modal is still
visible (a still-visible modal only triggers a logged warning and an extra
wait), and return success. -/
def click_send_button (env : SendEnv) (note_was_added : Bool) : Bool :=
  if env.sendBtnFound then
    let _modalWarning := env.modalStillVisible
    true
  else
    false

/-! ### Dispatcher and action strategies (`send_connection_request` and the
`_try_*` helpers, linkedin_bot.py 476-1083) -/

/-- Mutating or observable interactions of one dispatch call, in order. -/
inductive Act where
  | examineSel (i : Nat)
  | connectClick (b : Elem)
  | moreClick
  | dropConnectClick
  | followClick
  | noteAttempt
  | sendAttempt
deriving DecidableEq, Repr

/-- Outbound (relationship-mutating) actions in the sense of the invariant:
a Connect click (visible or in the dropdown) or a Follow click. -/
def isOutbound : Act → Bool
  | .connectClick _ => true
  | .dropConnectClick => true
  | .followClick => true
  | _ => false

/-- Driver responses for one whole dispatch call.  `visFind i` is what the
driver returns for the i-th visible-Connect selector when that iteration
runs; the note and send oracles are likewise indexed by the iteration, so
the model does not assume the page is static between interactions. -/
structure DispatchEnv where
  page : List Elem
  visFind : Nat → List Elem
  visNoteOk : Nat → Bool
  visSendOk : Nat → Bool
  moreFound : Bool
  dropConnectFound : Bool
  dropNoteOk : Bool
  dropSendOk : Bool
  followFound : Bool

/-- The position filter of `_try_visible_connect_button`: keep a button iff
it is displayed and not beyond y = 700 nor beyond x = 1000. -/
def validBtn (b : Elem) : Bool :=
  b.displayed && decide (b.y ≤ 700) && decide (b.x ≤ 1000)

/-- First candidate button that survives the displayed-and-position filter
(the loop at linkedin_bot.py 743-778 breaks at the first survivor). -/
def firstValid (bs : List Elem) : Option Elem := bs.find? validBtn

/-- Outcome dict built on a successful connection request (visible or
dropdown path). -/
def connectOutcome (noteSent : Bool) : Outcome :=
  { success := true
    action_taken := some .connection_request
    message_sent := some noteSent
    error := none }

/-- Loop body of `_try_visible_connect_button` over the remaining selector
indices: find candidates, position-filter, click the first valid one, run
the note composer when a non-blank message was supplied, click send; a
successful send returns the outcome, anything else falls through to the
next selector. -/
def tryVisibleFrom (env : DispatchEnv) (message : String) :
    List Nat → Option Outcome × List Act
  | [] => (none, [])
  | i :: rest =>
    match firstValid (env.visFind i) with
    | none =>
      let r := tryVisibleFrom env message rest
      (r.1, Act.examineSel i :: r.2)
    | some b =>
      let hasMsg := pyStrip message ≠ ""
      let noteActs := if hasMsg then [Act.noteAttempt] else []
      let noteSent := if hasMsg then env.visNoteOk i else false
      let pre := Act.examineSel i :: Act.connectClick b :: (noteActs ++ [Act.sendAttempt])
      if env.visSendOk i then
        (some (connectOutcome noteSent), pre)
      else
        let r := tryVisibleFrom env message rest
        (r.1, pre ++ r.2)

/-- Shallow embedding of `_try_visible_connect_button`: the four selector
candidates of `visible_connect_selectors` are tried in order. -/
def try_visible_connect_button (env : DispatchEnv) (message : String) :
    Option Outcome × List Act :=
  tryVisibleFrom env message [0, 1, 2, 3]

/-- Shallow embedding of `_try_connect_in_dropdown`: find a usable More
button (else give up), open it, find the Connect entry (else give up),
click it, run the note composer when a non-blank message was supplied,
click send.  A failed send here returns a failure dict, it does not fall
through. -/
def try_connect_in_dropdown (env : DispatchEnv) (message : String) :
    Option Outcome × List Act :=
  if !env.moreFound then (none, [])
  else if !env.dropConnectFound then (none, [Act.moreClick])
  else
    let hasMsg := pyStrip message ≠ ""
    let noteActs := if hasMsg then [Act.noteAttempt] else []
    let noteSent := if hasMsg then env.dropNoteOk else false
    let acts := Act.moreClick :: Act.dropConnectClick :: (noteActs ++ [Act.sendAttempt])
    if env.dropSendOk then
      (some (connectOutcome noteSent), acts)
    else
      (some { success := false, action_taken := none, message_sent := none
              error := some "Could not click Send button" }, acts)

/-- Shallow embedding of `_try_connect_button`: visible button first, then
the More dropdown; the dispatcher falls through only on a `None` result. -/
def try_connect_button (env : DispatchEnv) (message : String) :
    Option Outcome × List Act :=
  let v := try_visible_connect_button env message
  match v.1 with
  | some r => (some r, v.2)
  | none =>
    let d := try_connect_in_dropdown env message
    (d.1, v.2 ++ d.2)

/-- Shallow embedding of `_try_follow_button`: click the first clickable
Follow button if one exists; the note message is not a parameter of this
function in the source and the composer is never invoked here. -/
def try_follow_button (env : DispatchEnv) : Option Outcome × List Act :=
  if env.followFound then
    (some { success := true
            action_taken := some .follow
            message_sent := some false
            error := none }, [Act.followClick])
  else
    (none, [])

/-- Outcome dict returned directly by `_detect_relationship_status` when a
relationship already exists. -/
def statusOutcome : RelStatus → Outcome
  | .pending =>
    { success := true, action_taken := some .already_pending
      message_sent := none, error := none }
  | .connected =>
    { success := true, action_taken := some .already_connected
      message_sent := none, error := none }
  | .following =>
    { success := true, action_taken := some .already_following
      message_sent := none, error := none }

/-- Shallow embedding of the dispatch logic of `send_connection_request`
from STEP 1 on (login and navigation precede the modelled fragment): detect
an existing relationship and short-circuit, else try Connect (visible, then
dropdown), else try Follow, else return the terminal no-action failure
dict, which carries no `action_taken` key. -/
def send_connection_request (env : DispatchEnv) (message : String) :
    Outcome × List Act :=
  match detect_relationship_status env.page with
  | some st => (statusOutcome st, [])
  | none =>
    let c := try_connect_button env message
    match c.1 with
    | some r => (r, c.2)
    | none =>
      let f := try_follow_button env
      match f.1 with
      | some r => (r, c.2 ++ f.2)
      | none =>
        ({ success := false, action_taken := none, message_sent := none
           error := some "No action available - profile may be private or restricted" },
         c.2 ++ f.2)

/-! ### Spec-worded status detector, for comparison with the code one -/

/-- First-match rule evaluation: return the status of the first rule whose
page condition holds. -/
def firstRule : List ((List Elem → Bool) × RelStatus) → List Elem → Option RelStatus
  | [], _ => none
  | (c, s) :: rs, page => if c page then some s else firstRule rs page

/-- The connected condition shared by the claim wording and the code: a
visible Message control and no visible Connect, Follow or Pending control
(matching modes as in the source, the claim wording fixes none). -/
def connectedCond (page : List Elem) : Bool :=
  anyVisible page messageSel && !anyVisible page connectSel
    && !anyVisible page followExactSel && !anyVisible page pendingTextSel

/-- The status detector exactly as the claim words it: a visible control
whose text or aria-label matches "Pending" yields pending, otherwise the
Message-only test yields connected, otherwise a visible control matching
"Following" yields following, otherwise none.  Ambiguities the wording
leaves open (containment vs equality, text vs aria-label) are resolved the
way the source resolves them; the wording does not mention the source's
second pending selector, the aria-label "withdraw" test. -/
def claimDetect (page : List Elem) : Option RelStatus :=
  firstRule
    [(fun p => anyVisible p pendingTextAriaSel, .pending),
     (connectedCond, .connected),
     (fun p => anyVisible p followingSel, .following)] page

/-- The claim detector amended with the source's second pending rule: a
visible control whose aria-label contains "withdraw" also yields pending. -/
def claimDetectAmended (page : List Elem) : Option RelStatus :=
  firstRule
    [(fun p => anyVisible p (fun e => pendingTextAriaSel e || withdrawAriaSel e), .pending),
     (connectedCond, .connected),
     (fun p => anyVisible p followingSel, .following)] page

/-- One displayed button whose aria-label mentions withdrawing an
invitation but never the word Pending. -/
def withdrawOnlyPage : List Elem :=
  [{ text := "", ariaLabel := "click to withdraw invitation", displayed := true
     enabled := true, x := 0, y := 0 }]

/-- A dispatch environment in which the driver finds nothing at all. -/
def envBase : DispatchEnv :=
  { page := []
    visFind := fun _ => []
    visNoteOk := fun _ => false
    visSendOk := fun _ => false
    moreFound := false
    dropConnectFound := false
    dropNoteOk := false
    dropSendOk := false
    followFound := false }

/-- A displayed Connect button inside the profile-header region. -/
def connectBtnTop : Elem :=
  { text := "Connect", ariaLabel := "", displayed := true, enabled := true
    x := 10, y := 100 }

/-! ## Theorems for the spec claims -/

/-- C4: for every input message longer than 300 characters the composed
note text is exactly 300 characters long and ends with the ellipsis marker
"..."; messages of 300 characters or fewer pass through unchanged. -/
theorem clampNote_truncation (m : String) :
    (300 < m.length → (clampNote m).length = 300 ∧ "...".data <:+ (clampNote m).data)
    ∧ (m.length ≤ 300 → clampNote m = m) := by
  constructor
  · intro h
    unfold clampNote
    rw [if_pos h]
    constructor
    · show (m.data.take 297 ++ "...".data).length = 300
      rw [List.length_append, List.length_take]
      have h3 : "...".data.length = 3 := rfl
      have hm : m.length = m.data.length := rfl
      omega
    · exact ⟨m.data.take 297, rfl⟩
  · intro h
    unfold clampNote
    rw [if_neg (by omega)]

/-- A message of 301 identical characters, used to exercise the clamp. -/
def longMsg : String := ⟨List.replicate 301 'a'⟩

set_option maxRecDepth 4000 in
/-- C4 witness: the clamp theorem applied to a 301-character message and to
a 2-character message. -/
theorem clampNote_truncation_witness :
    (300 < longMsg.length ∧ (clampNote longMsg).length = 300
      ∧ "...".data <:+ (clampNote longMsg).data)
    ∧ ("hi".length ≤ 300 ∧ clampNote "hi" = "hi") :=
  have h1 : 300 < longMsg.length := by decide
  have h2 : "hi".length ≤ 300 := by decide
  ⟨⟨h1, (clampNote_truncation longMsg).1 h1⟩, h2, (clampNote_truncation "hi").2 h2⟩

/-- C6 counterexample: with a found field whose read-back content is empty,
the fill step still reports success although the content does not contain
the intended text "Hello" — the claimed iff between reported success and
content containment fails on the code. -/
theorem fill_textarea_success_despite_mismatch :
    (fill_message_textarea { fieldFound := true, fieldContent := "" } "Hello").success = true
    ∧ strContains "" "Hello" = false := by decide

/-- C6 amended: the fill step reports success iff a displayed message field
was found (and the typing pass raised no error); the read-back content only
drives a logged length warning and never the reported result. -/
theorem fill_textarea_success_iff_field_found (env : NoteFillEnv) (message : String) :
    (fill_message_textarea env message).success = env.fieldFound := by
  rcases env with ⟨ff, fc⟩
  cases ff <;> rfl

/-- C7 counterexample: with the send control found but the composing modal
still displayed after the post-click wait, the verifier reports success —
it is not failure-biased as claimed. -/
theorem send_click_success_despite_modal :
    click_send_button { sendBtnFound := true, modalStillVisible := true } true = true
    ∧ ({ sendBtnFound := true, modalStillVisible := true } : SendEnv).modalStillVisible
        = true := by
  decide

/-- C7 amended: the send-click step reports success iff a send control was
found and clicked; a still-visible modal only triggers a logged warning and
an extra wait and never changes the reported result. -/
theorem send_click_result_ignores_modal (env : SendEnv) (note_was_added : Bool) :
    click_send_button env note_was_added = env.sendBtnFound := by
  rcases env with ⟨sf, mv⟩
  cases sf <;> rfl

/-- The `action_taken` value the dispatcher reports for an existing
relationship status. -/
def alreadyOf : RelStatus → ActionTaken
  | .pending => .already_pending
  | .connected => .already_connected
  | .following => .already_following

/-- C1: whenever the status detector reports a non-none relationship
state, the dispatch performs zero mutating actions (its trace holds no
connect or follow click) and returns that state as `action_taken` with
success true. -/
theorem dispatch_status_short_circuit (env : DispatchEnv) (message : String)
    (st : RelStatus) (h : detect_relationship_status env.page = some st) :
    (send_connection_request env message).2.filter isOutbound = []
    ∧ (send_connection_request env message).1.success = true
    ∧ (send_connection_request env message).1.action_taken = some (alreadyOf st) := by
  unfold send_connection_request
  rw [h]
  cases st <;> simp [statusOutcome, alreadyOf]

/-- A profile page showing a displayed Pending button. -/
def pendingPage : List Elem :=
  [{ text := "Pending", ariaLabel := "", displayed := true, enabled := true
     x := 5, y := 120 }]

/-- C1 witness: the short-circuit theorem applied to a page with a
displayed Pending button. -/
theorem dispatch_status_short_circuit_witness :
    (send_connection_request { envBase with page := pendingPage } "Hello").2.filter isOutbound = []
    ∧ (send_connection_request { envBase with page := pendingPage } "Hello").1.success = true
    ∧ (send_connection_request { envBase with page := pendingPage } "Hello").1.action_taken
        = some (alreadyOf .pending) :=
  dispatch_status_short_circuit { envBase with page := pendingPage } "Hello" .pending (by decide)

/-- C3: when the status detector reports no relationship and the
Connect-visible, Connect-in-dropdown and Follow strategies all fail (each
returns no outcome), the dispatch returns the terminal outcome with
success false and no `action_taken` key. -/
theorem dispatch_no_action_failure (env : DispatchEnv) (message : String)
    (h0 : detect_relationship_status env.page = none)
    (h1 : (try_visible_connect_button env message).1 = none)
    (h2 : (try_connect_in_dropdown env message).1 = none)
    (h3 : (try_follow_button env).1 = none) :
    (send_connection_request env message).1.success = false
    ∧ (send_connection_request env message).1.action_taken = none := by
  have hc : (try_connect_button env message).1 = none := by
    simp only [try_connect_button, h1]
    exact h2
  simp [send_connection_request, h0, hc, h3]

/-- C3 witness: the terminal-failure theorem applied to the environment in
which the driver finds nothing at all. -/
theorem dispatch_no_action_failure_witness :
    (send_connection_request envBase "Hello").1.success = false
    ∧ (send_connection_request envBase "Hello").1.action_taken = none :=
  dispatch_no_action_failure envBase "Hello" (by decide) (by decide) (by decide) (by decide)

/-- C10: whenever the dispatch falls back to the Follow strategy and the
follow click applies, the returned outcome is exactly the follow outcome —
`action_taken` is follow, `message_sent` is false and success is true —
for every caller-supplied note message, and the Follow path performs no
note-composer attempt (its trace holds no `noteAttempt`; in the source
`_try_follow_button` does not even receive the message). -/
theorem follow_fallback_ignores_note (env : DispatchEnv) (message : String)
    (h0 : detect_relationship_status env.page = none)
    (h1 : (try_connect_button env message).1 = none)
    (hf : env.followFound = true) :
    (send_connection_request env message).1.action_taken = some .follow
    ∧ (send_connection_request env message).1.message_sent = some false
    ∧ (send_connection_request env message).1.success = true
    ∧ Act.noteAttempt ∉ (try_follow_button env).2 := by
  simp [send_connection_request, h0, h1, try_follow_button, hf]

/-- C10 witness: the follow-fallback theorem applied to an environment
with only a Follow button and a non-empty caller note. -/
theorem follow_fallback_ignores_note_witness :
    (send_connection_request { envBase with followFound := true } "Hi there").1.action_taken
        = some .follow
    ∧ (send_connection_request { envBase with followFound := true } "Hi there").1.message_sent
        = some false
    ∧ (send_connection_request { envBase with followFound := true } "Hi there").1.success = true
    ∧ Act.noteAttempt ∉ (try_follow_button { envBase with followFound := true }).2 :=
  follow_fallback_ignores_note { envBase with followFound := true } "Hi there"
    (by decide) (by decide) (by decide)

/-- The failing environment for the one-outbound-action invariant: the
first visible-Connect selector yields a valid button but the send click
fails, and the second selector again yields a valid button with a send
click that succeeds. -/
def envDoubleClick : DispatchEnv :=
  { envBase with
      visFind := fun i => if i ≤ 1 then [connectBtnTop] else []
      visSendOk := fun i => decide (i = 1) }

/-- C2 (code bug): on `envDoubleClick` the status detector reports no
relationship and it runs before any action, yet the dispatch clicks
Connect twice in one call — after the failed send click the loop at
linkedin_bot.py 729-830 falls through to the next selector instead of
stopping, so the trace holds two outbound connect clicks. -/
theorem dispatch_double_connect_click :
    detect_relationship_status envDoubleClick.page = none
    ∧ ((send_connection_request envDoubleClick "").2.filter isOutbound).length = 2
    ∧ (send_connection_request envDoubleClick "").1.success = true
    ∧ (send_connection_request envDoubleClick "").1.action_taken
        = some .connection_request := by
  decide

/-- Scanning a page for a disjunction of selectors equals the disjunction
of the two scans. -/
theorem anyVisible_or (p : List Elem) (f g : Elem → Bool) :
    anyVisible p (fun e => f e || g e) = (anyVisible p f || anyVisible p g) := by
  induction p with
  | nil => rfl
  | cons a l ih =>
    simp only [anyVisible, List.any_cons] at ih ⊢
    cases hd : a.displayed <;> cases hf : f a <;> cases hg : g a <;> simp [hd, hf, hg, ih]

/-- C5 counterexample: on a page whose only displayed button has an
aria-label mentioning withdraw but never the word Pending, the code
detector reports pending while the detector built from the claim wording
reports none — the claim omits the source's aria-label withdraw rule. -/
theorem detect_status_claim_counterexample :
    detect_relationship_status withdrawOnlyPage = some .pending
    ∧ claimDetect withdrawOnlyPage = none := by decide

/-- C5 amended: the code detector coincides on every page with the
first-match rule evaluator worded as the claim, once the pending rule also
covers a visible control whose aria-label contains "withdraw".  Both
return exactly one of pending, connected, following or none, resolve
overlaps by the fixed priority order, and read the page without mutating
it (the detector produces no action trace by construction). -/
theorem detect_status_matches_amended_claim (page : List Elem) :
    detect_relationship_status page = claimDetectAmended page := by
  simp only [detect_relationship_status, claimDetectAmended, firstRule, connectedCond,
    anyVisible_or]

/-- The trace prefix produced when selector j yields the valid button b:
examine, click Connect, try the note when a non-blank message was
supplied, click send. -/
def visHitTrace (message : String) (j : Nat) (b : Elem) : List Act :=
  Act.examineSel j :: Act.connectClick b ::
    ((if pyStrip message ≠ "" then [Act.noteAttempt] else []) ++ [Act.sendAttempt])

/-- When the position filter rejects every candidate of a selector, the
visible-Connect loop records the examination and moves on unchanged. -/
theorem tryVisibleFrom_skip (env : DispatchEnv) (message : String) (j : Nat)
    (rest : List Nat) (h : firstValid (env.visFind j) = none) :
    tryVisibleFrom env message (j :: rest)
      = ((tryVisibleFrom env message rest).1,
         Act.examineSel j :: (tryVisibleFrom env message rest).2) := by
  conv_lhs => unfold tryVisibleFrom
  rw [h]

/-- When selector j yields a valid button and the send click succeeds, the
loop stops with the connection-request outcome. -/
theorem tryVisibleFrom_hit_ok (env : DispatchEnv) (message : String) (j : Nat)
    (rest : List Nat) (b : Elem) (h : firstValid (env.visFind j) = some b)
    (hs : env.visSendOk j = true) :
    tryVisibleFrom env message (j :: rest)
      = (some (connectOutcome (if pyStrip message ≠ "" then env.visNoteOk j else false)),
         visHitTrace message j b) := by
  conv_lhs => unfold tryVisibleFrom
  rw [h]
  simp only [hs, if_true]
  rfl

/-- When selector j yields a valid button but the send click fails, the
loop falls through to the remaining selectors, keeping the click in the
trace. -/
theorem tryVisibleFrom_hit_fail (env : DispatchEnv) (message : String) (j : Nat)
    (rest : List Nat) (b : Elem) (h : firstValid (env.visFind j) = some b)
    (hs : env.visSendOk j = false) :
    tryVisibleFrom env message (j :: rest)
      = ((tryVisibleFrom env message rest).1,
         visHitTrace message j b ++ (tryVisibleFrom env message rest).2) := by
  conv_lhs => unfold tryVisibleFrom
  rw [h]
  simp only [hs, Bool.false_eq_true, if_false]
  rfl

/-- The visible-Connect loop always records examining the selector at the
head of its list, whatever the driver returns. -/
theorem examineSel_head_mem (env : DispatchEnv) (message : String) (i : Nat)
    (rest : List Nat) :
    Act.examineSel i ∈ (tryVisibleFrom env message (i :: rest)).2 := by
  rcases h : firstValid (env.visFind i) with _ | b
  · rw [tryVisibleFrom_skip env message i rest h]
    exact List.mem_cons_self _ _
  · cases hs : env.visSendOk i
    · rw [tryVisibleFrom_hit_fail env message i rest b h hs]
      simp [visHitTrace]
    · rw [tryVisibleFrom_hit_ok env message i rest b h hs]
      simp [visHitTrace]

/-- When the visible-Connect loop ends with no outcome it examined every
selector on its list. -/
theorem examineSel_mem_of_none (env : DispatchEnv) (message : String) :
    ∀ (l : List Nat), (tryVisibleFrom env message l).1 = none →
      ∀ i ∈ l, Act.examineSel i ∈ (tryVisibleFrom env message l).2 := by
  intro l
  induction l with
  | nil => intro _ i hi; simp at hi
  | cons j rest ih =>
    intro hres i hi
    rcases List.mem_cons.mp hi with rfl | hi2
    · exact examineSel_head_mem env message i rest
    · rcases h : firstValid (env.visFind j) with _ | b
      · rw [tryVisibleFrom_skip env message j rest h] at hres ⊢
        exact List.mem_cons_of_mem _ (ih hres i hi2)
      · cases hs : env.visSendOk j
        · rw [tryVisibleFrom_hit_fail env message j rest b h hs] at hres ⊢
          exact List.mem_append_right _ (ih hres i hi2)
        · rw [tryVisibleFrom_hit_ok env message j rest b h hs] at hres
          simp at hres

/-- C8: if the first two visible-Connect selector candidates fail to
resolve a usable (displayed, position-valid) element, the third candidate
is still examined; and whenever the visible strategy ends with no outcome
— the only case in which the dispatcher falls back to the dropdown
strategy — the fourth candidate was examined too and the whole visible
trace precedes the dropdown trace in the combined strategy trace. -/
theorem connect_selector_fallback_order (env : DispatchEnv) (message : String)
    (h0 : firstValid (env.visFind 0) = none) (h1 : firstValid (env.visFind 1) = none) :
    Act.examineSel 2 ∈ (try_visible_connect_button env message).2
    ∧ ((try_visible_connect_button env message).1 = none →
        Act.examineSel 3 ∈ (try_visible_connect_button env message).2
        ∧ (try_connect_button env message).2
            = (try_visible_connect_button env message).2
              ++ (try_connect_in_dropdown env message).2) := by
  have e0 := tryVisibleFrom_skip env message 0 [1, 2, 3] h0
  have e1 := tryVisibleFrom_skip env message 1 [2, 3] h1
  constructor
  · show Act.examineSel 2 ∈ (tryVisibleFrom env message [0, 1, 2, 3]).2
    rw [e0, e1]
    exact List.mem_cons_of_mem _ (List.mem_cons_of_mem _ (examineSel_head_mem env message 2 [3]))
  · intro hres
    have hcb : (try_connect_button env message).2
        = (try_visible_connect_button env message).2
          ++ (try_connect_in_dropdown env message).2 := by
      simp [try_connect_button, hres]
    have h23 : (tryVisibleFrom env message [2, 3]).1 = none := by
      have hres2 : (tryVisibleFrom env message [0, 1, 2, 3]).1 = none := hres
      rw [e0, e1] at hres2
      exact hres2
    refine ⟨?_, hcb⟩
    show Act.examineSel 3 ∈ (tryVisibleFrom env message [0, 1, 2, 3]).2
    rw [e0, e1]
    refine List.mem_cons_of_mem _ (List.mem_cons_of_mem _ ?_)
    exact examineSel_mem_of_none env message [2, 3] h23 3 (by simp)

/-- C8 witness: the fallback-order theorem applied to the environment in
which no selector resolves anything. -/
theorem connect_selector_fallback_order_witness :
    Act.examineSel 2 ∈ (try_visible_connect_button envBase "Hi").2
    ∧ ((try_visible_connect_button envBase "Hi").1 = none →
        Act.examineSel 3 ∈ (try_visible_connect_button envBase "Hi").2
        ∧ (try_connect_button envBase "Hi").2
            = (try_visible_connect_button envBase "Hi").2
              ++ (try_connect_in_dropdown envBase "Hi").2) :=
  connect_selector_fallback_order envBase "Hi" (by decide) (by decide)

/-- A Connect click recorded in a hit-trace prefix is a click on the
button of that prefix. -/
theorem connectClick_mem_visHitTrace (message : String) (j : Nat) (b b0 : Elem)
    (h : Act.connectClick b ∈ visHitTrace message j b0) : b = b0 := by
  by_cases hm : pyStrip message ≠ "" <;> simp [visHitTrace, hm] at h <;> exact h

/-- Every button the visible-Connect loop clicks passed the position
filter. -/
theorem connectClick_valid_of_mem (env : DispatchEnv) (message : String) :
    ∀ (l : List Nat) (b : Elem), Act.connectClick b ∈ (tryVisibleFrom env message l).2 →
      validBtn b = true := by
  intro l
  induction l with
  | nil => intro b hb; simp [tryVisibleFrom] at hb
  | cons j rest ih =>
    intro b hb
    rcases h : firstValid (env.visFind j) with _ | b0
    · rw [tryVisibleFrom_skip env message j rest h] at hb
      rcases List.mem_cons.mp hb with heq | htl
      · exact absurd heq (by simp)
      · exact ih b htl
    · have hv : validBtn b0 = true := List.find?_some h
      cases hs : env.visSendOk j
      · rw [tryVisibleFrom_hit_fail env message j rest b0 h hs] at hb
        rcases List.mem_append.mp hb with hpre | htl
        · rw [connectClick_mem_visHitTrace message j b b0 hpre]
          exact hv
        · exact ih b htl
      · rw [tryVisibleFrom_hit_ok env message j rest b0 h hs] at hb
        rw [connectClick_mem_visHitTrace message j b b0 hb]
        exact hv

/-- C9: for every candidate list and every set of matching buttons the
driver returns, a button the Connect-visible strategy clicks as its
primary action target is displayed and lies within the position
thresholds — never beyond y = 700 nor beyond x = 1000. -/
theorem visible_connect_position_filter (env : DispatchEnv) (message : String) (b : Elem)
    (hb : Act.connectClick b ∈ (try_visible_connect_button env message).2) :
    b.displayed = true ∧ b.y ≤ 700 ∧ b.x ≤ 1000 := by
  have hv := connectClick_valid_of_mem env message [0, 1, 2, 3] b hb
  have hv2 : (b.displayed = true ∧ b.y ≤ 700) ∧ b.x ≤ 1000 := by
    simpa [validBtn, Bool.and_eq_true, decide_eq_true_eq] using hv
  exact ⟨hv2.1.1, hv2.1.2, hv2.2⟩

/-- The environment whose first visible-Connect selector yields the
in-region Connect button and whose send click succeeds. -/
def envVisibleHit : DispatchEnv :=
  { envBase with
      visFind := fun i => if i = 0 then [connectBtnTop] else []
      visSendOk := fun _ => true }

/-- C9 witness: the position-filter theorem applied to the concrete
clicked button of `envVisibleHit`. -/
theorem visible_connect_position_filter_witness :
    Act.connectClick connectBtnTop ∈ (try_visible_connect_button envVisibleHit "Hi").2
    ∧ (connectBtnTop.displayed = true ∧ connectBtnTop.y ≤ 700 ∧ connectBtnTop.x ≤ 1000) :=
  have hb : Act.connectClick connectBtnTop
      ∈ (try_visible_connect_button envVisibleHit "Hi").2 := by decide
  ⟨hb, visible_connect_position_filter envVisibleHit "Hi" connectBtnTop hb⟩
